import Mathlib

/-!
Verification of the relay-control daemon `raspberry_pi_telegram_bot.py`.

The source is shallowly embedded: every Telegram-bot handler becomes a pure
function from the hardware state to the ordered list of side effects it
performs (GPIO reads/writes, LCD operations, outbound bot messages), paired
with the Python exception it raises, if any.  Effects that the handler
performed before raising are kept in the list, matching Python's evaluation
order.  The external collaborators are modelled by their documented
contracts: a GPIO channel holds a level once `setup` configured it,
`cleanup` releases every channel used by the program, and reading a channel
that is not set up raises a runtime error; the LCD is a cleared-then-append
text surface.
-/

namespace RaspberryPiBot

/-- Emoji constant `em_bulb` from the source (`:bulb:`). -/
def em_bulb : String := "💡"

/-- Emoji constant `em_status_changed` from the source (`:thumbsup:`). -/
def em_status_changed : String := "👍"

/-- Emoji constant `em_status_on` from the source (`:red_circle:`). -/
def em_status_on : String := "🔴"

/-- Emoji constant `em_status_off` from the source (`:black_circle:`). -/
def em_status_off : String := "⚫"

/-- The source's `dict_relay_bcm`: relay identifier to BCM pin number, in the
dictionary's (insertion) order `1, 2, 3, 4`. -/
def dict_relay_bcm : List (Nat × Nat) := [(1, 23), (2, 24), (3, 25), (4, 16)]

/-- The Python exceptions the embedded handlers can raise. -/
inductive PyError
  | keyError
  | valueError
  | runtimeError
deriving DecidableEq, Repr

/-- One side effect of a handler, in the order the Python code performs them.
`gpioRead` records the level a `GPIO.input` call returned; `mcpOutput` is the
PCF8574 backlight line; bot effects carry the text sent to the caller. -/
inductive Effect
  | gpioSetMode
  | gpioSetup (pin : Nat) (level : Bool)
  | gpioOutput (pin : Nat) (level : Bool)
  | gpioRead (pin : Nat) (level : Bool)
  | gpioCleanup
  | lcdBegin (cols rows : Nat)
  | lcdClear
  | lcdMessage (text : String)
  | mcpOutput (pin val : Nat)
  | backlightOff
  | sendMessage (text : String)
  | replyTo (text : String)
  | answerCallback
deriving DecidableEq, Repr

/-- The hardware state the handlers observe and mutate.  `pins` is the set of
GPIO channels set up by this program, as an association list from BCM pin
number to output level (`true` = HIGH); a pin absent from the list is
released / not set up.  `lcdLines` is the LCD content; `backlight` the
PCF8574 backlight line. -/
structure RpiState where
  pins : List (Nat × Bool)
  lcdLines : List String
  backlight : Bool
deriving DecidableEq, Repr

/-- Write `level` to channel `pin`: update it in place when present,
configure it otherwise. -/
def setPin : List (Nat × Bool) → Nat → Bool → List (Nat × Bool)
  | [], pin, l => [(pin, l)]
  | (p, v) :: rest, pin, l =>
      if p = pin then (p, l) :: rest else (p, v) :: setPin rest pin l

/-- `GPIO.input`: the level of a configured channel, `none` when the channel
is not set up (RPi.GPIO raises a RuntimeError there). -/
def gpio_input (s : RpiState) (pin : Nat) : Option Bool :=
  List.lookup pin s.pins

/-- How one effect transforms the hardware state.  Bot effects and reads
leave it unchanged. -/
def applyEffect (s : RpiState) : Effect → RpiState
  | .gpioSetup pin l => { s with pins := setPin s.pins pin l }
  | .gpioOutput pin l => { s with pins := setPin s.pins pin l }
  | .gpioCleanup => { s with pins := [] }
  | .lcdClear => { s with lcdLines := [] }
  | .lcdMessage t => { s with lcdLines := s.lcdLines ++ [t] }
  | .mcpOutput p v => if p = 3 then { s with backlight := v != 0 } else s
  | .backlightOff => { s with backlight := false }
  | _ => s

/-- Run a list of effects left to right. -/
def applyTrace (s : RpiState) (t : List Effect) : RpiState :=
  t.foldl applyEffect s

/-- The source's active-low reporting convention: a physical LOW reading is
logical ENERGIZED / "on", a physical HIGH reading is "off". -/
def relay_logical_on (level : Bool) : Bool := !level

/-- Digit-list accumulator for `py_int?`. -/
def str_digits? : List Char → Option Nat → Option Nat
  | [], acc => acc
  | c :: rest, acc =>
      if c.isDigit then str_digits? rest (some (acc.getD 0 * 10 + (c.toNat - 48)))
      else none

/-- Python's `int(s)` on the digit strings the callback data carries: the
parsed number, or `none` where `int()` raises ValueError (empty string or a
non-digit character). -/
def py_int? (s : String) : Option Nat := str_digits? s.data none

/-- Python's `s.startswith(p)`. -/
def str_startsWith (s p : String) : Bool := p.data.isPrefixOf s.data

/-- `start_command`: reply with the greeting, show the welcome banner and
the caller's name on the LCD. -/
def start_command (first_name last_name : String) : List Effect :=
  [ .replyTo ("Hi! I am the Raspberry Pi 3 Model B+ Telegram Bot made by Antonio Musarra's Blog.\n"
      ++ "If you want more information on how to use this bot, use the /help command and\n"
      ++ "if you want to learn more, read the article https://www.dontesta.it"),
    .lcdClear,
    .lcdMessage "Welcome on Bot!\n",
    .lcdMessage (first_name ++ " " ++ last_name) ]

/-- `help_command`: the actions list (sent with an attached link button,
modelled by its text), then the LCD update. -/
def help_command : List Effect :=
  [ .sendMessage ("This bot implements the architecture shown in the figure https://bit.ly/ArchitetturaRaspberryPiTelegramBot\n"
      ++ "Through this bot it is possible:\n\n"
      ++ "\t1) Activate and Deactivate one of the four relays using the command /set_relay_status\n"
      ++ "\t2) Check the status of the four relays using the command /get_relay_status\n"
      ++ "\t3) View schema design using the command /get_schema_design\n\n"),
    .lcdClear,
    .lcdMessage "Request Command\n",
    .lcdMessage "/help" ]

/-- `set_relay_status_command`: the selector message (its inline keyboard
offers callback data `relay-1` … `relay-4`, modelled by the message text),
then the LCD update.  No hardware change. -/
def set_relay_status_command : List Effect :=
  [ .sendMessage ("Select one of the Relays for which to change state.\n"
      ++ "After change state you can view the new state with \n"
      ++ "the command /get_relay_status"),
    .lcdClear,
    .lcdMessage "Request Command\n",
    .lcdMessage "/set_relay_status" ]

/-- The per-relay status line of `get_relay_status_command`: HIGH reports the
"off" emoji, LOW the "on" emoji. -/
def status_text (relay_id : Nat) (level : Bool) : String :=
  if level then s!"Status of the RelayId {relay_id} " ++ em_status_off
  else s!"Status of the RelayId {relay_id} " ++ em_status_on

/-- The loop body of `get_relay_status_command` over (a suffix of)
`dict_relay_bcm`: read each pin and send its status line.  A read failure
raises, keeping the messages already sent. -/
def status_messages (s : RpiState) : List (Nat × Nat) → List Effect × Option PyError
  | [] => ([], none)
  | (relay_id, bcm_value) :: rest =>
      match gpio_input s bcm_value with
      | none => ([], some .runtimeError)
      | some level =>
          let tail := status_messages s rest
          (.gpioRead bcm_value level :: .sendMessage (status_text relay_id level) :: tail.1,
           tail.2)

/-- `get_relay_status_command`: one status line per relay in dictionary
order, then the LCD update (skipped when a read raised). -/
def get_relay_status_command (s : RpiState) : List Effect × Option PyError :=
  match status_messages s dict_relay_bcm with
  | (effs, some e) => (effs, some e)
  | (effs, none) =>
      (effs ++ [.lcdClear, .lcdMessage "Request Command\n", .lcdMessage "/get_relay_status"],
       none)

/-- `get_schema_design_command`: static reply and LCD update. -/
def get_schema_design_command : List Effect :=
  [ .replyTo ("This is the wiring diagram behind this Telegram bot"
      ++ " https://bit.ly/SchemaElettricoRaspberryPiTelegramBot"),
    .lcdClear,
    .lcdMessage "Request Command\n",
    .lcdMessage "/get_schema_design" ]

/-- The confirmation text of `send_set_relay_status_result`. -/
def result_text (relay_id : Nat) (active : Bool) : String :=
  (if active then em_status_on else em_status_off)
    ++ s!" Changed status of the RelayId {relay_id} " ++ em_status_changed

/-- `send_set_relay_status_result`: the confirmation reply. -/
def send_set_relay_status_result (relay_id : Nat) (active : Bool) : List Effect :=
  [.sendMessage (result_text relay_id active)]

/-- `set_relay_status_callback`: parse the relay id from `query.data[6:]`
(`int()` raises ValueError on non-digits), look it up in `dict_relay_bcm`
(a missing id raises KeyError, before any effect), read the pin and flip it.
The branch order of effects follows the source exactly: in the HIGH branch
the write precedes the LCD update, in the LOW branch it follows; both
branches end with `answer_callback_query` and then the confirmation
reply. -/
def set_relay_status_callback (s : RpiState) (data : String) : List Effect × Option PyError :=
  match py_int? (data.drop 6) with
  | none => ([], some .valueError)
  | some relay_id =>
      match List.lookup relay_id dict_relay_bcm with
      | none => ([], some .keyError)
      | some bcm =>
          match gpio_input s bcm with
          | none => ([], some .runtimeError)
          | some level =>
              if level then
                (.gpioRead bcm true :: .gpioOutput bcm false :: .lcdClear
                   :: .lcdMessage (s!"Act. Relay {relay_id}\n") :: .lcdMessage "In listening..."
                   :: .answerCallback :: send_set_relay_status_result relay_id true,
                 none)
              else
                (.gpioRead bcm false :: .lcdClear
                   :: .lcdMessage (s!"De Act. Relay {relay_id}\n") :: .lcdMessage "In listening..."
                   :: .gpioOutput bcm true
                   :: .answerCallback :: send_set_relay_status_result relay_id false,
                 none)

/-- `inline_query_callback`: dispatch to `set_relay_status_callback` only
when the callback data starts with `relay-`; otherwise do nothing at all. -/
def inline_query_callback (s : RpiState) (data : String) : List Effect × Option PyError :=
  if str_startsWith data "relay-" then set_relay_status_callback s data else ([], none)

/-- `initialize_relay`: BCM mode, then each relay pin configured as an
output at the initial level HIGH. -/
def initialize_relay : List Effect :=
  [.gpioSetMode, .gpioSetup 23 true, .gpioSetup 24 true, .gpioSetup 25 true, .gpioSetup 16 true]

/-- `initialize_lcd`: backlight on, 16x2 mode, startup banner. -/
def initialize_lcd : List Effect :=
  [.mcpOutput 3 1, .lcdBegin 16 2, .lcdMessage "Rasp-Pi Telegram\n", .lcdMessage "Bot in action..."]

/-- `destroy`: `GPIO.cleanup()` releases every channel this program set up
(on the active-low relay board a released line is pulled up, i.e.
de-energized), then the LCD is cleared, shows the shutdown text, and the
backlight is switched off.  Console prints are diagnostic only and not
modelled. -/
def destroy : List Effect :=
  [.gpioCleanup, .lcdClear, .lcdMessage "Shutdown...\n", .lcdMessage "I'm not active", .backlightOff]

/-- An inbound event delivered by the Telegram subscription while the run
loop is LISTENING: one of the five command messages or a callback query. -/
inductive Cmd
  | start (first_name last_name : String)
  | help
  | setRelayStatus
  | getRelayStatus
  | getSchemaDesign
  | callback (data : String)

/-- Dispatch one inbound event to its handler. -/
def handleCmd (s : RpiState) : Cmd → List Effect × Option PyError
  | .start fn ln => (start_command fn ln, none)
  | .help => (help_command, none)
  | .setRelayStatus => (set_relay_status_command, none)
  | .getRelayStatus => get_relay_status_command s
  | .getSchemaDesign => (get_schema_design_command, none)
  | .callback data => inline_query_callback s data

/-- The effects of one LISTENING period handling the events `cmds` in order;
a handler exception ends the period (the run loop's `except` catches it). -/
def sessionTrace (s : RpiState) : List Cmd → List Effect
  | [] => []
  | c :: rest =>
      match handleCmd s c with
      | (effs, some _) => effs
      | (effs, none) => effs ++ sessionTrace (applyTrace s effs) rest

/-- The state at the end of a LISTENING period. -/
def runSession (s : RpiState) (cmds : List Cmd) : RpiState :=
  applyTrace s (sessionTrace s cmds)

/-- The effects of the `while 1` body of `main_loop` over a list of
LISTENING periods, each terminated by a subscription fault that triggers
`destroy()` and a re-subscription. -/
def loopTrace (s : RpiState) : List (List Cmd) → List Effect
  | [] => []
  | cmds :: rest =>
      (sessionTrace s cmds ++ destroy)
        ++ loopTrace (applyTrace s (sessionTrace s cmds ++ destroy)) rest

/-- The startup effects of `main_loop`: `initialize_relay()` then
`initialize_lcd()`, before the first subscription. -/
def boot_trace : List Effect := initialize_relay ++ initialize_lcd

/-- The full effect trace of `main_loop` across `ss` faulted LISTENING
periods. -/
def main_loop_trace (s0 : RpiState) (ss : List (List Cmd)) : List Effect :=
  boot_trace ++ loopTrace (applyTrace s0 boot_trace) ss

/-- The state at entry to the next LISTENING period after the recoveries for
the faulted periods `ss`. -/
def listeningEntryState (s : RpiState) : List (List Cmd) → RpiState
  | [] => s
  | cmds :: rest =>
      listeningEntryState (applyTrace s (sessionTrace s cmds ++ destroy)) rest

/-- The state at entry to the LISTENING period that follows the faulted
periods `ss` of a `main_loop` run started in `s0`. -/
def stateAtListening (s0 : RpiState) (ss : List (List Cmd)) : RpiState :=
  listeningEntryState (applyTrace s0 boot_trace) ss

/-- The state `destroy` always leaves behind: every channel released, the
shutdown text on the LCD, backlight off. -/
def shutdownState : RpiState :=
  { pins := [], lcdLines := ["Shutdown...\n", "I'm not active"], backlight := false }

/-- A pin is at the safe de-energized ("off") level when it is not driven
LOW: under the board's active-low wiring only a LOW drive energizes the
relay, so both a HIGH drive and a released (pulled-up) line are "off". -/
def pinSafeOff (s : RpiState) (bcm : Nat) : Prop :=
  List.lookup bcm s.pins ≠ some false

/-- Whether an effect is part of hardware initialization (GPIO mode/setup,
LCD begin, backlight power-up). -/
def isInitEff : Effect → Bool
  | .gpioSetMode => true
  | .gpioSetup _ _ => true
  | .lcdBegin _ _ => true
  | .mcpOutput _ _ => true
  | _ => false

/-- Whether an effect writes (drives, configures or releases) a GPIO pin. -/
def isPinWriteEff : Effect → Bool
  | .gpioSetup _ _ => true
  | .gpioOutput _ _ => true
  | .gpioCleanup => true
  | _ => false

/-- Whether an effect updates the LCD content. -/
def isLcdEff : Effect → Bool
  | .lcdClear => true
  | .lcdMessage _ => true
  | _ => false

/-- Whether an effect is the one-shot callback acknowledgment. -/
def isAckEff : Effect → Bool
  | .answerCallback => true
  | _ => false

/-- Whether an effect is a caller-visible reply (plain message or reply). -/
def isReplyEff : Effect → Bool
  | .sendMessage _ => true
  | .replyTo _ => true
  | _ => false

/-- The text of a caller-visible message, `none` for other effects. -/
def msgText : Effect → Option String
  | .sendMessage t => some t
  | _ => none

/-- The state after one `set_relay_status_callback` invocation on `data`. -/
def toggleRun (s : RpiState) (data : String) : RpiState :=
  applyTrace s (set_relay_status_callback s data).1

/-- A concrete state with all four relay pins configured HIGH (the state
right after `initialize_relay`), used by witnesses. -/
def allHighState : RpiState :=
  { pins := [(23, true), (24, true), (25, true), (16, true)], lcdLines := [], backlight := true }

/-! ## Shared lemmas -/

/-- Writing a pin and reading it back yields the written level. -/
theorem lookup_setPin_self (ps : List (Nat × Bool)) (pin : Nat) (v : Bool) :
    List.lookup pin (setPin ps pin v) = some v := by
  induction ps with
  | nil => simp [setPin, List.lookup]
  | cons hd tl ih =>
      obtain ⟨p, w⟩ := hd
      by_cases h : p = pin
      · subst h; simp [setPin, List.lookup]
      · have hb : (pin == p) = false := by simp [Ne.symm h]
        simp [setPin, h, List.lookup, hb, ih]

/-- Writing one pin leaves every other pin's level unchanged. -/
theorem lookup_setPin_ne (ps : List (Nat × Bool)) (p pin : Nat) (v : Bool) (h : p ≠ pin) :
    List.lookup p (setPin ps pin v) = List.lookup p ps := by
  have hb : (p == pin) = false := by simp [h]
  induction ps with
  | nil => simp [setPin, List.lookup, hb]
  | cons hd tl ih =>
      obtain ⟨q, w⟩ := hd
      by_cases hq : q = pin
      · subst hq; simp [setPin, List.lookup, hb]
      · simp [setPin, hq, List.lookup, ih]

/-- `destroy` drives the same final state from every starting state: all
channels released, shutdown text on the LCD, backlight off. -/
theorem destroy_resets (s : RpiState) : applyTrace s destroy = shutdownState := rfl

/-- Running a concatenated trace equals running its halves in order. -/
theorem applyTrace_append (s : RpiState) (a b : List Effect) :
    applyTrace s (a ++ b) = applyTrace (applyTrace s a) b := by
  simp [applyTrace, List.foldl_append]

/-- An effect that is not a pin write leaves the pin map unchanged. -/
theorem applyEffect_pins (s : RpiState) (e : Effect) (he : isPinWriteEff e = false) :
    (applyEffect s e).pins = s.pins := by
  cases e <;> first
    | rfl
    | (rw [applyEffect]; split <;> rfl)
    | (simp [isPinWriteEff] at he)

/-- A trace with no pin-write effect leaves the pin map unchanged. -/
theorem applyTrace_pins_eq (t : List Effect) (s : RpiState)
    (h : t.countP isPinWriteEff = 0) : (applyTrace s t).pins = s.pins := by
  rw [List.countP_eq_zero] at h
  induction t generalizing s with
  | nil => rfl
  | cons e rest ih =>
      show (applyTrace (applyEffect s e) rest).pins = s.pins
      rw [ih (applyEffect s e) (fun a ha => h a (List.mem_cons_of_mem _ ha)),
        applyEffect_pins s e (by simpa using h e (List.mem_cons_self _ _))]

/-- The status loop of `get_relay_status_command` emits no pin write. -/
theorem status_messages_no_write (s : RpiState) (ps : List (Nat × Nat)) :
    (status_messages s ps).1.countP isPinWriteEff = 0 := by
  induction ps with
  | nil => rfl
  | cons hd tl ih =>
      obtain ⟨rid, bcm⟩ := hd
      cases h : gpio_input s bcm <;>
        simp [status_messages, h, List.countP_cons, isPinWriteEff, ih]

/-- The status loop depends only on the pin map. -/
theorem status_messages_congr (s s' : RpiState) (hp : s.pins = s'.pins)
    (ps : List (Nat × Nat)) : status_messages s ps = status_messages s' ps := by
  induction ps with
  | nil => rfl
  | cons hd tl ih =>
      obtain ⟨rid, bcm⟩ := hd
      simp [status_messages, gpio_input, hp, ih]

/-- `get_relay_status_command` depends only on the pin map. -/
theorem get_relay_status_congr (s s' : RpiState) (hp : s.pins = s'.pins) :
    get_relay_status_command s = get_relay_status_command s' := by
  simp [get_relay_status_command, status_messages_congr s s' hp]

/-- When every configured pin is readable the status loop raises nothing. -/
theorem status_messages_err_none (s : RpiState) (ps : List (Nat × Nat))
    (hall : ∀ pq ∈ ps, (List.lookup pq.2 s.pins).isSome = true) :
    (status_messages s ps).2 = none := by
  induction ps with
  | nil => rfl
  | cons hd tl ih =>
      obtain ⟨rid, bcm⟩ := hd
      have h0 := hall (rid, bcm) (List.mem_cons_self _ _)
      rcases hv : gpio_input s bcm with _ | v
      · rw [gpio_input] at hv; simp [hv] at h0
      · simp [status_messages, hv, ih (fun pq hpq => hall pq (List.mem_cons_of_mem _ hpq))]

/-- When every configured pin is readable, the status loop emits the status
line of each configured relay at its current level. -/
theorem status_messages_mem (s : RpiState) (ps : List (Nat × Nat)) (rid bcm : Nat) (l : Bool)
    (hall : ∀ pq ∈ ps, (List.lookup pq.2 s.pins).isSome = true)
    (hmem : (rid, bcm) ∈ ps)
    (hread : List.lookup bcm s.pins = some l) :
    Effect.sendMessage (status_text rid l) ∈ (status_messages s ps).1 := by
  induction ps with
  | nil => simp at hmem
  | cons hd tl ih =>
      obtain ⟨r0, b0⟩ := hd
      have h0 := hall (r0, b0) (List.mem_cons_self _ _)
      rcases hv : gpio_input s b0 with _ | v
      · rw [gpio_input] at hv; simp [hv] at h0
      · rcases List.mem_cons.mp hmem with heq | htl
        · injection heq with h1 h2
          subst h1; subst h2
          rw [gpio_input, hread] at hv
          cases Option.some.inj hv
          simp [status_messages, gpio_input, hread]
        · have hmtl := ih (fun pq hpq => hall pq (List.mem_cons_of_mem _ hpq)) htl
          simp [status_messages, hv, hmtl]

/-- After any number of faulted LISTENING periods followed by one more
fault, the recovery leaves exactly the post-`destroy` state. -/
theorem listeningEntry_last (prev : List (List Cmd)) (s : RpiState) (cmds : List Cmd) :
    listeningEntryState s (prev ++ [cmds]) = shutdownState := by
  induction prev generalizing s with
  | nil =>
      simp only [List.nil_append, listeningEntryState]
      rw [applyTrace_append, destroy_resets]
  | cons c rest ih =>
      simp only [List.cons_append, listeningEntryState]
      exact ih _

/-- `set_relay_status_callback` emits no initialization effect. -/
theorem set_relay_callback_no_init (s : RpiState) (d : String) :
    (set_relay_status_callback s d).1.countP isInitEff = 0 := by
  rw [set_relay_status_callback]
  split
  · rfl
  · split
    · rfl
    · split
      · rfl
      · split <;> rfl

/-- The status loop emits no initialization effect. -/
theorem status_messages_no_init (s : RpiState) (ps : List (Nat × Nat)) :
    (status_messages s ps).1.countP isInitEff = 0 := by
  induction ps with
  | nil => rfl
  | cons hd tl ih =>
      obtain ⟨rid, bcm⟩ := hd
      cases h : gpio_input s bcm <;>
        simp [status_messages, h, List.countP_cons, isInitEff, ih]

/-- `get_relay_status_command` emits no initialization effect. -/
theorem get_relay_status_no_init (s : RpiState) :
    (get_relay_status_command s).1.countP isInitEff = 0 := by
  have h0 := status_messages_no_init s dict_relay_bcm
  rcases hsm : status_messages s dict_relay_bcm with ⟨effs, err⟩
  rw [hsm] at h0
  cases err <;>
    simp_all [get_relay_status_command, hsm, List.countP_append, List.countP_cons, isInitEff]

/-- No handler emits an initialization effect. -/
theorem handleCmd_no_init (s : RpiState) (c : Cmd) :
    (handleCmd s c).1.countP isInitEff = 0 := by
  cases c with
  | start fn ln => rfl
  | help => rfl
  | setRelayStatus => rfl
  | getRelayStatus => exact get_relay_status_no_init s
  | getSchemaDesign => rfl
  | callback d =>
      rw [handleCmd, inline_query_callback]
      split
      · exact set_relay_callback_no_init s d
      · rfl

/-- `destroy` emits no initialization effect. -/
theorem destroy_no_init : destroy.countP isInitEff = 0 := rfl

/-- A LISTENING period emits no initialization effect. -/
theorem sessionTrace_no_init (cmds : List Cmd) (s : RpiState) :
    (sessionTrace s cmds).countP isInitEff = 0 := by
  induction cmds generalizing s with
  | nil => rfl
  | cons c rest ih =>
      rcases hc : handleCmd s c with ⟨effs, err⟩
      have h0 : effs.countP isInitEff = 0 := by
        have h1 := handleCmd_no_init s c; rw [hc] at h1; exact h1
      cases err <;> simp [sessionTrace, hc, List.countP_append, h0, ih]

/-- The whole fault-and-recover loop emits no initialization effect. -/
theorem loopTrace_no_init (ss : List (List Cmd)) (s : RpiState) :
    (loopTrace s ss).countP isInitEff = 0 := by
  induction ss generalizing s with
  | nil => rfl
  | cons cmds rest ih =>
      simp [loopTrace, List.countP_append, sessionTrace_no_init, destroy_no_init, ih]

/-! ## Claim theorems -/

/-- C1 (counterexample): at relay id 5 — outside the configured set — the
toggle callback raises a KeyError and its trace holds no caller-visible
reply at all, so the error is not converted into a text error reply as the
claim states: it escapes the handler. -/
theorem unknown_relay_cex :
    (set_relay_status_callback allHighState "relay-5").2 = some PyError.keyError ∧
    (set_relay_status_callback allHighState "relay-5").1.countP isReplyEff = 0 ∧
    (set_relay_status_callback allHighState "relay-5").1 = [] := by decide

/-- C1 (amended): a ToggleRelay command whose relay id parses but lies
outside `dict_relay_bcm` makes `set_relay_status_callback` raise a KeyError
that escapes the handler with no reply sent, no effect performed, and every
pin's state and the display content left unchanged. -/
theorem unknown_relay_keyerror (s : RpiState) (data : String) (rid : Nat)
    (hparse : py_int? (data.drop 6) = some rid)
    (hmem : List.lookup rid dict_relay_bcm = none) :
    set_relay_status_callback s data = ([], some PyError.keyError) ∧
    applyTrace s (set_relay_status_callback s data).1 = s := by
  have h1 : set_relay_status_callback s data = ([], some PyError.keyError) := by
    simp [set_relay_status_callback, hparse, hmem]
  exact ⟨h1, by rw [h1]; rfl⟩

/-- C1 (witness): the amended claim at relay id 5 in the post-boot state. -/
theorem unknown_relay_keyerror_witness :
    set_relay_status_callback allHighState "relay-5" = ([], some PyError.keyError) ∧
    applyTrace allHighState (set_relay_status_callback allHighState "relay-5").1 = allHighState :=
  unknown_relay_keyerror allHighState "relay-5" 5 (by decide) (by decide)

/-- C2: for every configured relay id and every initial pin level, toggling
twice returns the pin to its original physical level, and the second
toggle's confirmation reply reports the original logical state (toggle is
an involution on relay state). -/
theorem toggle_involution (s : RpiState) (data : String) (rid bcm : Nat) (l : Bool)
    (hparse : py_int? (data.drop 6) = some rid)
    (hdict : List.lookup rid dict_relay_bcm = some bcm)
    (hread : List.lookup bcm s.pins = some l) :
    List.lookup bcm (toggleRun s data).pins = some (!l) ∧
    List.lookup bcm (toggleRun (toggleRun s data) data).pins = some l ∧
    (set_relay_status_callback (toggleRun s data) data).1.getLast? =
      some (.sendMessage (result_text rid (relay_logical_on l))) := by
  cases l with
  | false =>
      have hc1 : set_relay_status_callback s data =
          (.gpioRead bcm false :: .lcdClear
             :: .lcdMessage (s!"De Act. Relay {rid}\n") :: .lcdMessage "In listening..."
             :: .gpioOutput bcm true
             :: .answerCallback :: send_set_relay_status_result rid false, none) := by
        simp [set_relay_status_callback, hparse, hdict, gpio_input, hread]
      have hp1 : (toggleRun s data).pins = setPin s.pins bcm true := by
        rw [toggleRun, hc1]; rfl
      have hr1 : List.lookup bcm (toggleRun s data).pins = some true := by
        rw [hp1]; exact lookup_setPin_self s.pins bcm true
      have hc2 : set_relay_status_callback (toggleRun s data) data =
          (.gpioRead bcm true :: .gpioOutput bcm false :: .lcdClear
             :: .lcdMessage (s!"Act. Relay {rid}\n") :: .lcdMessage "In listening..."
             :: .answerCallback :: send_set_relay_status_result rid true, none) := by
        simp [set_relay_status_callback, hparse, hdict, gpio_input, hr1]
      have hp2 : (toggleRun (toggleRun s data) data).pins =
          setPin (toggleRun s data).pins bcm false := by
        rw [toggleRun, hc2]; rfl
      refine ⟨hr1, ?_, ?_⟩
      · rw [hp2]; exact lookup_setPin_self _ bcm false
      · rw [hc2]; rfl
  | true =>
      have hc1 : set_relay_status_callback s data =
          (.gpioRead bcm true :: .gpioOutput bcm false :: .lcdClear
             :: .lcdMessage (s!"Act. Relay {rid}\n") :: .lcdMessage "In listening..."
             :: .answerCallback :: send_set_relay_status_result rid true, none) := by
        simp [set_relay_status_callback, hparse, hdict, gpio_input, hread]
      have hp1 : (toggleRun s data).pins = setPin s.pins bcm false := by
        rw [toggleRun, hc1]; rfl
      have hr1 : List.lookup bcm (toggleRun s data).pins = some false := by
        rw [hp1]; exact lookup_setPin_self s.pins bcm false
      have hc2 : set_relay_status_callback (toggleRun s data) data =
          (.gpioRead bcm false :: .lcdClear
             :: .lcdMessage (s!"De Act. Relay {rid}\n") :: .lcdMessage "In listening..."
             :: .gpioOutput bcm true
             :: .answerCallback :: send_set_relay_status_result rid false, none) := by
        simp [set_relay_status_callback, hparse, hdict, gpio_input, hr1]
      have hp2 : (toggleRun (toggleRun s data) data).pins =
          setPin (toggleRun s data).pins bcm true := by
        rw [toggleRun, hc2]; rfl
      refine ⟨hr1, ?_, ?_⟩
      · rw [hp2]; exact lookup_setPin_self _ bcm true
      · rw [hc2]; rfl

/-- C2 (witness): relay 1, pin 23 starting HIGH. -/
theorem toggle_involution_witness :
    List.lookup 23 (toggleRun allHighState "relay-1").pins = some (!true) ∧
    List.lookup 23 (toggleRun (toggleRun allHighState "relay-1") "relay-1").pins = some true ∧
    (set_relay_status_callback (toggleRun allHighState "relay-1") "relay-1").1.getLast? =
      some (.sendMessage (result_text 1 (relay_logical_on true))) :=
  toggle_involution allHighState "relay-1" 1 23 true (by decide) (by decide) (by decide)

/-- C3: the active-low polarity mapping is applied identically in both
paths.  In the status-query path the relay's line carries the on-marker
exactly when the physical level is LOW (`relay_logical_on`); in the toggle
path the new physical level is the inverse of the old and the confirmation
reply carries the marker of `relay_logical_on` applied to that new level. -/
theorem polarity_consistent_both_paths (s : RpiState) (data : String) (rid bcm : Nat) (l : Bool)
    (hmem : (rid, bcm) ∈ dict_relay_bcm)
    (hdict : List.lookup rid dict_relay_bcm = some bcm)
    (hall : ∀ pq ∈ dict_relay_bcm, (List.lookup pq.2 s.pins).isSome = true)
    (hread : List.lookup bcm s.pins = some l)
    (hparse : py_int? (data.drop 6) = some rid) :
    Effect.sendMessage (status_text rid l) ∈ (get_relay_status_command s).1 ∧
    status_text rid l =
      s!"Status of the RelayId {rid} "
        ++ (if relay_logical_on l then em_status_on else em_status_off) ∧
    List.lookup bcm (toggleRun s data).pins = some (!l) ∧
    (set_relay_status_callback s data).1.getLast? =
      some (.sendMessage (result_text rid (relay_logical_on (!l)))) := by
  have herr := status_messages_err_none s dict_relay_bcm hall
  have hm := status_messages_mem s dict_relay_bcm rid bcm l hall hmem hread
  refine ⟨?_, ?_, ?_, ?_⟩
  · rcases hsm : status_messages s dict_relay_bcm with ⟨effs, err⟩
    rw [hsm] at herr hm
    dsimp at herr hm
    subst herr
    simp [get_relay_status_command, hsm, hm]
  · cases l <;> rfl
  · cases l with
    | false =>
        have hc1 : set_relay_status_callback s data =
            (.gpioRead bcm false :: .lcdClear
               :: .lcdMessage (s!"De Act. Relay {rid}\n") :: .lcdMessage "In listening..."
               :: .gpioOutput bcm true
               :: .answerCallback :: send_set_relay_status_result rid false, none) := by
          simp [set_relay_status_callback, hparse, hdict, gpio_input, hread]
        have hp1 : (toggleRun s data).pins = setPin s.pins bcm true := by
          rw [toggleRun, hc1]; rfl
        rw [hp1]; exact lookup_setPin_self s.pins bcm true
    | true =>
        have hc1 : set_relay_status_callback s data =
            (.gpioRead bcm true :: .gpioOutput bcm false :: .lcdClear
               :: .lcdMessage (s!"Act. Relay {rid}\n") :: .lcdMessage "In listening..."
               :: .answerCallback :: send_set_relay_status_result rid true, none) := by
          simp [set_relay_status_callback, hparse, hdict, gpio_input, hread]
        have hp1 : (toggleRun s data).pins = setPin s.pins bcm false := by
          rw [toggleRun, hc1]; rfl
        rw [hp1]; exact lookup_setPin_self s.pins bcm false
  · cases l <;>
      simp [set_relay_status_callback, hparse, hdict, gpio_input, hread,
        send_set_relay_status_result, relay_logical_on]

/-- C3 (witness): relay 2, pin 24 at LOW among HIGH pins: reported "on" in
the status path; toggled to HIGH and reported "off" in the toggle path. -/
theorem polarity_consistent_both_paths_witness :
    Effect.sendMessage (status_text 2 false)
        ∈ (get_relay_status_command ⟨[(23, true), (24, false), (25, true), (16, true)], [], true⟩).1 ∧
    status_text 2 false =
      s!"Status of the RelayId {(2 : Nat)} "
        ++ (if relay_logical_on false then em_status_on else em_status_off) ∧
    List.lookup 24 (toggleRun ⟨[(23, true), (24, false), (25, true), (16, true)], [], true⟩ "relay-2").pins
      = some (!false) ∧
    (set_relay_status_callback ⟨[(23, true), (24, false), (25, true), (16, true)], [], true⟩ "relay-2").1.getLast? =
      some (.sendMessage (result_text 2 (relay_logical_on (!false)))) :=
  polarity_consistent_both_paths ⟨[(23, true), (24, false), (25, true), (16, true)], [], true⟩
    "relay-2" 2 24 false (by decide) (by decide) (by decide) (by decide) (by decide)

/-- C4: whatever happened during any number of LISTENING periods, the state
at re-entry into LISTENING after a subscription fault is exactly the
shutdown state: every configured relay pin is at the safe de-energized
level (in particular one that was ENERGIZED before the fault) and the
display shows the shutdown text.  The run loop is modelled for every finite
list of faulted periods, so recovery re-subscribes after each fault and no
channel fault reaches a process exit. -/
theorem fault_recovery_resets_relays (s0 : RpiState) (prev : List (List Cmd)) (cmds : List Cmd) :
    stateAtListening s0 (prev ++ [cmds]) = shutdownState ∧
    (∀ rid bcm, (rid, bcm) ∈ dict_relay_bcm →
      pinSafeOff (stateAtListening s0 (prev ++ [cmds])) bcm) ∧
    (stateAtListening s0 (prev ++ [cmds])).lcdLines = ["Shutdown...\n", "I'm not active"] := by
  have h : stateAtListening s0 (prev ++ [cmds]) = shutdownState :=
    listeningEntry_last prev (applyTrace s0 boot_trace) cmds
  refine ⟨h, ?_, ?_⟩
  · intro rid bcm _
    rw [pinSafeOff, h]
    simp [shutdownState, List.lookup]
  · rw [h]; rfl

/-- C4 (witness): relay 3 (pin 25) is ENERGIZED (LOW) when the fault ends
the period; at the next LISTENING entry it is safe-off and the display
shows the shutdown text. -/
theorem fault_recovery_resets_relays_witness :
    List.lookup 25 (runSession (applyTrace ⟨[], [], false⟩ boot_trace) [Cmd.callback "relay-3"]).pins
      = some false ∧
    stateAtListening ⟨[], [], false⟩ ([] ++ [[Cmd.callback "relay-3"]]) = shutdownState ∧
    pinSafeOff (stateAtListening ⟨[], [], false⟩ ([] ++ [[Cmd.callback "relay-3"]])) 25 ∧
    (stateAtListening ⟨[], [], false⟩ ([] ++ [[Cmd.callback "relay-3"]])).lcdLines
      = ["Shutdown...\n", "I'm not active"] :=
  ⟨by decide,
   (fault_recovery_resets_relays ⟨[], [], false⟩ [] [Cmd.callback "relay-3"]).1,
   (fault_recovery_resets_relays ⟨[], [], false⟩ [] [Cmd.callback "relay-3"]).2.1 3 25 (by decide),
   (fault_recovery_resets_relays ⟨[], [], false⟩ [] [Cmd.callback "relay-3"]).2.2⟩

/-- C5: `initialize_relay` leaves every configured relay pin at the level
HIGH, which is logically de-energized ("off") under the active-low
polarity. -/
theorem initialize_relay_all_off (s0 : RpiState) (rid bcm : Nat)
    (hmem : (rid, bcm) ∈ dict_relay_bcm) :
    List.lookup bcm (applyTrace s0 initialize_relay).pins = some true ∧
    relay_logical_on true = false := by
  refine ⟨?_, rfl⟩
  have hb : bcm = 23 ∨ bcm = 24 ∨ bcm = 25 ∨ bcm = 16 := by
    simp [dict_relay_bcm] at hmem
    rcases hmem with ⟨h1, h2⟩ | ⟨h1, h2⟩ | ⟨h1, h2⟩ | ⟨h1, h2⟩ <;> simp [h2]
  rcases hb with h | h | h | h <;> subst h <;>
    simp [applyTrace, initialize_relay, applyEffect,
      lookup_setPin_self, lookup_setPin_ne]

/-- C5 (witness): relay 1's pin 23, starting from a blank state. -/
theorem initialize_relay_all_off_witness :
    List.lookup 23 (applyTrace ⟨[], [], false⟩ initialize_relay).pins = some true ∧
    relay_logical_on true = false :=
  initialize_relay_all_off ⟨[], [], false⟩ 1 23 (by decide)

/-- C6 (counterexample): on a successfully handled toggle of relay 1, the
trace holds both display updates and a reply, and the first display update
comes strictly before the reply — so the display update is not performed
only after the reply is queued, refuting the claim's ordering. -/
theorem display_before_reply_cex :
    (set_relay_status_callback allHighState "relay-1").2 = none ∧
    (set_relay_status_callback allHighState "relay-1").1.countP isLcdEff ≠ 0 ∧
    (set_relay_status_callback allHighState "relay-1").1.countP isReplyEff ≠ 0 ∧
    (set_relay_status_callback allHighState "relay-1").1.findIdx isLcdEff <
      (set_relay_status_callback allHighState "relay-1").1.findIdx isReplyEff := by
  decide

/-- C6 (amended): for every successfully handled toggle command the one-shot
acknowledgment precedes the confirmation reply, but the display update is
performed before the acknowledgment — and hence before the reply is queued
— not after it. -/
theorem ack_before_reply_display_first (s : RpiState) (data : String) (rid bcm : Nat) (l : Bool)
    (hparse : py_int? (data.drop 6) = some rid)
    (hdict : List.lookup rid dict_relay_bcm = some bcm)
    (hread : List.lookup bcm s.pins = some l) :
    (set_relay_status_callback s data).2 = none ∧
    (set_relay_status_callback s data).1.findIdx isAckEff <
      (set_relay_status_callback s data).1.findIdx isReplyEff ∧
    (set_relay_status_callback s data).1.findIdx isLcdEff <
      (set_relay_status_callback s data).1.findIdx isAckEff := by
  cases l <;>
    simp [set_relay_status_callback, hparse, hdict, gpio_input, hread,
      send_set_relay_status_result, List.findIdx_cons, isAckEff, isReplyEff, isLcdEff]

/-- C6 (witness): the amended ordering on relay 1 in the post-boot state. -/
theorem ack_before_reply_display_first_witness :
    (set_relay_status_callback allHighState "relay-1").2 = none ∧
    (set_relay_status_callback allHighState "relay-1").1.findIdx isAckEff <
      (set_relay_status_callback allHighState "relay-1").1.findIdx isReplyEff ∧
    (set_relay_status_callback allHighState "relay-1").1.findIdx isLcdEff <
      (set_relay_status_callback allHighState "relay-1").1.findIdx isAckEff :=
  ack_before_reply_display_first allHighState "relay-1" 1 23 true (by decide) (by decide) (by decide)

/-- C7: for every assignment of levels to the four configured pins,
`get_relay_status_command` sends exactly one status line per relay, in the
dictionary's fixed id order 1, 2, 3, 4, each line carrying that relay's
state text, and raises nothing. -/
theorem get_relay_status_lines (l1 l2 l3 l4 : Bool) (lcd : List String) (bl : Bool) :
    ((get_relay_status_command ⟨[(23, l1), (24, l2), (25, l3), (16, l4)], lcd, bl⟩).1.filterMap msgText
      = [status_text 1 l1, status_text 2 l2, status_text 3 l3, status_text 4 l4]) ∧
    (get_relay_status_command ⟨[(23, l1), (24, l2), (25, l3), (16, l4)], lcd, bl⟩).2 = none := by
  exact ⟨rfl, rfl⟩

/-- C8: `get_relay_status_command` never writes a pin: its trace holds no
pin-write effect, running it leaves every pin's level identical, and a
second call straight after yields the identical result. -/
theorem get_relay_status_never_writes (s : RpiState) :
    (get_relay_status_command s).1.countP isPinWriteEff = 0 ∧
    (applyTrace s (get_relay_status_command s).1).pins = s.pins ∧
    get_relay_status_command (applyTrace s (get_relay_status_command s).1) =
      get_relay_status_command s := by
  have h1 : (get_relay_status_command s).1.countP isPinWriteEff = 0 := by
    have h0 := status_messages_no_write s dict_relay_bcm
    rcases hsm : status_messages s dict_relay_bcm with ⟨effs, err⟩
    rw [hsm] at h0
    cases err <;>
      simp_all [get_relay_status_command, hsm, List.countP_append, List.countP_cons,
        isPinWriteEff]
  have h2 := applyTrace_pins_eq _ s h1
  exact ⟨h1, h2, get_relay_status_congr _ _ h2⟩

/-- C9: across any run of `main_loop`, the whole effect trace decomposes
into the boot prefix — which holds the seven hardware-initialization
effects — followed by the fault-and-recover loop, which holds none: pin
and display initialization are executed exactly once, before the first
subscription, so after any recovery the post-shutdown pin configuration
(every channel released by `GPIO.cleanup`, not the INITIALIZING safe-output
setup) is the configuration in effect at every later LISTENING entry. -/
theorem init_runs_once (s0 : RpiState) (ss : List (List Cmd)) :
    main_loop_trace s0 ss = boot_trace ++ loopTrace (applyTrace s0 boot_trace) ss ∧
    boot_trace.countP isInitEff = 7 ∧
    (loopTrace (applyTrace s0 boot_trace) ss).countP isInitEff = 0 ∧
    ∀ prev cmds, ss = prev ++ [cmds] → (stateAtListening s0 ss).pins = [] := by
  refine ⟨rfl, rfl, loopTrace_no_init ss _, ?_⟩
  intro prev cmds h
  subst h
  rw [stateAtListening, listeningEntry_last]
  rfl

/-- C9 (witness): one faulted period handling `/help`. -/
theorem init_runs_once_witness :
    main_loop_trace ⟨[], [], false⟩ [[Cmd.help]] =
      boot_trace ++ loopTrace (applyTrace ⟨[], [], false⟩ boot_trace) [[Cmd.help]] ∧
    boot_trace.countP isInitEff = 7 ∧
    (loopTrace (applyTrace ⟨[], [], false⟩ boot_trace) [[Cmd.help]]).countP isInitEff = 0 ∧
    (stateAtListening ⟨[], [], false⟩ [[Cmd.help]]).pins = [] :=
  ⟨(init_runs_once ⟨[], [], false⟩ [[Cmd.help]]).1,
   (init_runs_once ⟨[], [], false⟩ [[Cmd.help]]).2.1,
   (init_runs_once ⟨[], [], false⟩ [[Cmd.help]]).2.2.1,
   (init_runs_once ⟨[], [], false⟩ [[Cmd.help]]).2.2.2 [] [Cmd.help] rfl⟩

/-- C10: a callback token whose data does not start with `relay-` makes the
handler do nothing at all: no effect (no pin read or write, no display
change, no acknowledgment, no reply), no exception, and the state is left
unchanged. -/
theorem non_relay_callback_no_effect (s : RpiState) (data : String)
    (h : str_startsWith data "relay-" = false) :
    inline_query_callback s data = ([], none) ∧
    applyTrace s (inline_query_callback s data).1 = s := by
  have h1 : inline_query_callback s data = ([], none) := by
    simp [inline_query_callback, h]
  exact ⟨h1, by rw [h1]; rfl⟩

/-- C10 (witness): the `/start` token in the post-boot state. -/
theorem non_relay_callback_no_effect_witness :
    inline_query_callback allHighState "/start" = ([], none) ∧
    applyTrace allHighState (inline_query_callback allHighState "/start").1 = allHighState :=
  non_relay_callback_no_effect allHighState "/start" (by decide)

end RaspberryPiBot
